import Mathlib

/-!
Verification of the Traffic-Buddy backend core logic: a shallow embedding of
the division-resolution (geofencing) pipeline, the WhatsApp webhook
conversational state machine, the report-ingestion paths, the capture-link
validity check and the session manager, together with theorems settling the
specification claims.

Conventions of the embedding:
* JavaScript numbers are modelled as rationals (`ℚ`); `parseFloat` results are
  `Option ℚ` with `none` standing for `NaN`.
* A JavaScript value that only matters through its truthiness and its numeric
  parse (the `latitude` / `longitude` request fields) is modelled as a
  `JSValue`: its truthiness bit plus its `parseFloat` image.
* Database collections are lists in storage order; `find()` returns the list,
  `findOne` / `find?` return the first match.
* Outbound message delivery (Twilio) is modelled by an oracle
  `sendOk : String → Bool` giving, per recipient string, whether the send
  succeeds or throws; timestamps are rationals (milliseconds).
-/

namespace TrafficBuddy

/-- A JavaScript value as the division-resolution code observes it:
its truthiness (the `!latitude` check) and its `parseFloat` image
(`none` = `NaN`).  The JS number `0` is `⟨false, some 0⟩`; the string `"0"`
is `⟨true, some 0⟩`; `null`/`undefined`/`""` are `⟨false, none⟩`;
a non-numeric non-empty string is `⟨true, none⟩`. -/
structure JSValue where
  truthy : Bool
  toNumber : Option ℚ
deriving DecidableEq, Repr

/-- The JS number `q` as a `JSValue` (`0` is falsy, `parseFloat` is itself). -/
def jsNum (q : ℚ) : JSValue := ⟨decide (q ≠ 0), some q⟩

/-- A non-empty numeric string such as `"18.62"` (truthy, parses to `q`). -/
def jsNumStr (q : ℚ) : JSValue := ⟨true, some q⟩

/-- `null` / `undefined` / `""`: falsy, parses to `NaN`. -/
def jsNull : JSValue := ⟨false, none⟩

/-- Truthiness of an optional string (`undefined`/`null` and `""` are falsy). -/
def jsTruthyStr : Option String → Bool
  | none => false
  | some s => !(s == "")

/-- `a || b` on optional strings with JS truthiness. -/
def jsOrStr (a : Option String) (b : String) : String :=
  match a with
  | some s => if s == "" then b else s
  | none => b

/-- One vertex of a polygon ring, already passed through `parseFloat`:
`(x, y)` = `(longitude, latitude)`, `none` marking a non-numeric component. -/
abbrev Vertex := Option ℚ × Option ℚ

/-- A division officer (subdocument of `Division.officers`). -/
structure Officer where
  name : String
  phone : String
  alternate_phone : Option String
  isActive : Bool
deriving DecidableEq, Repr

/-- An administrative division.  `boundaries` models
`division.boundaries.coordinates` (a GeoJSON-style list of rings, outer ring
first); `none` stands for a missing/invalid `boundaries` object. -/
structure Division where
  id : ℕ
  name : String
  boundaries : Option (List (List Vertex))
  officers : List Officer
deriving DecidableEq, Repr

/-- Address field of a persisted report location, kept symbolic:
the source stores either the provided address string, the raw-coordinate
interpolation `` `${latitude}, ${longitude}` ``, or `'Unknown location'`. -/
inductive Addr where
  | provided (s : String)
  | rawCoords (latv lngv : JSValue)
  | unknownLoc
deriving DecidableEq, Repr

/-- The `location` subdocument of a persisted query. -/
structure Location where
  latitude : Option ℚ
  longitude : Option ℚ
  address : Addr
deriving DecidableEq, Repr

/-- One entry of `divisionOfficersNotified`. -/
structure Contact where
  phone : String
  notification_time : ℚ
deriving DecidableEq, Repr

/-- A persisted `Query` document (report / suggestion / join request),
with the fields the claims are about. -/
structure Query where
  user_id : String
  user_name : String
  query_type : String
  description : Option String
  photo_url : Option String
  location : Option Location
  status : String
  division : Option ℕ
  divisionName : Option String
  divisionNotified : Bool
  officersNotified : List Contact
  name : Option String := none
  email : Option String := none
  phone : Option String := none
deriving DecidableEq, Repr

/-- A per-user conversation session document. -/
structure Session where
  user_id : String
  current_state : String
  last_option : Option String
  language : String
  user_name : Option String
  last_interaction : ℚ
  last_description : Option String
  last_photo_url : Option String
deriving DecidableEq, Repr

/-- A single-use capture link (`ReportLink` document). -/
structure RLink where
  linkId : String
  userId : String
  reportType : String
  createdAt : ℚ
  used : Bool
  usedAt : Option ℚ
deriving DecidableEq, Repr

/-- A cached location-resolution result: the division id and name, or the
explicit outside-jurisdiction marker. -/
inductive CacheVal where
  | division (id : ℕ) (name : String)
  | outside
deriving DecidableEq, Repr

/-- The location cache: keys are coordinates rounded to 6 decimals
(`toFixed(6)`), modelled as the integer `round (q * 10^6)` per coordinate.
Insertion prepends; lookup takes the first match (equivalent to the
overwrite-on-set key-value store of the source). -/
abbrev Cache := List ((ℤ × ℤ) × CacheVal)

/-- Rounding a coordinate to 6 decimal places for the cache key. -/
def round6 (q : ℚ) : ℤ := round (q * 1000000)

/-- Cache lookup. -/
def cacheGet (c : Cache) (k : ℤ × ℤ) : Option CacheVal :=
  (c.find? (fun e => e.1 = k)).map (·.2)

/-- Cache insertion. -/
def cacheSet (c : Cache) (k : ℤ × ℤ) (v : CacheVal) : Cache := (k, v) :: c

/-! ## Point-in-polygon (ray casting), `src/unnamed/part_002` lines 162-207 -/

/-- Contribution of one polygon edge to the ray-casting loop: the pair is
`(polygon[i], polygon[j])` with `j = i - 1 (mod n)`; an edge with any
non-numeric endpoint component is skipped (`continue`), i.e. never crosses. -/
def edgeCrosses (x y : ℚ) : Vertex × Vertex → Bool
  | ((some xi, some yi), (some xj, some yj)) =>
      decide ((yi > y) ≠ (yj > y)) &&
      decide (x < (xj - xi) * (y - yi) / (yj - yi) + xi)
  | _ => false

/-- The edge list the loop `for (i = 0, j = n-1; i < n; j = i++)` walks:
pairs `(polygon[i], polygon[(i+n-1) % n])`. -/
def edgePairs (polygon : List Vertex) : List (Vertex × Vertex) :=
  polygon.zip (polygon.rotate (polygon.length - 1))

/-- The `inside` flag flipped once per crossing edge. -/
def rayCastFold (x y : ℚ) (edges : List (Vertex × Vertex)) : Bool :=
  edges.foldl (fun inside e => if edgeCrosses x y e then !inside else inside) false

/-- `isPointInPolygon(point, polygon)`: rejects rings of fewer than 3 vertices
and non-numeric points, then runs the even-odd ray cast.  The point is
`(x, y)` = `(longitude, latitude)` after `parseFloat`. -/
def isPointInPolygon (point : Option ℚ × Option ℚ) (polygon : List Vertex) : Bool :=
  if polygon.length < 3 then false
  else
    match point with
    | (some x, some y) => rayCastFold x y (edgePairs polygon)
    | _ => false

/-! ## Division resolution, `src/unnamed/part_002` lines 90-159 -/

/-- Whether the scan finds the point inside `division`: the division is
skipped when `boundaries` is missing or its ring list is empty; otherwise the
outer ring (`coordinates[0]`) is tested (rings of fewer than 3 vertices are
skipped by the scan and also rejected by `isPointInPolygon` itself). -/
def divisionContains (division : Division) (lng lat : ℚ) : Bool :=
  match division.boundaries with
  | some (polygon :: _) =>
      if polygon.length < 3 then false
      else isPointInPolygon (some lng, some lat) polygon
  | _ => false

/-- The cache-miss scan over all divisions in storage order; first polygon
containing the point wins. -/
def scanDivisions (divisions : List Division) (lng lat : ℚ) : Option Division :=
  divisions.find? (fun d => divisionContains d lng lat)

/-- `Division.findById`. -/
def findById (divisions : List Division) (id : ℕ) : Option Division :=
  divisions.find? (fun d => d.id = id)

/-- `findDivisionForLocation(latitude, longitude)` over an explicit cache and
division store.  Returns the resolved division (or `none`), the updated cache
and a flag recording whether the polygon scan ran (for the cache-idempotence
claim).  Falsy inputs (`!latitude || !longitude`) and `NaN` parses are
rejected before any cache or store access. -/
def findDivisionForLocation (cache : Cache) (divisions : List Division)
    (latitude longitude : JSValue) : Option Division × Cache × Bool :=
  if !latitude.truthy || !longitude.truthy then (none, cache, false)
  else
    match latitude.toNumber, longitude.toNumber with
    | some lat, some lng =>
      let key : ℤ × ℤ := (round6 lat, round6 lng)
      match cacheGet cache key with
      | some (CacheVal.division id _) => (findById divisions id, cache, false)
      | some CacheVal.outside => (none, cache, false)
      | none =>
        match scanDivisions divisions lng lat with
        | some d => (some d, cacheSet cache key (CacheVal.division d.id d.name), true)
        | none => (none, cacheSet cache key CacheVal.outside, true)
    | _, _ => (none, cache, false)

/-! ## Session manager, `src/utils/sessionManager.js` -/

/-- The inactivity timeout (1 hour in milliseconds). -/
def conversationTimeout : ℚ := 3600000

/-- `getUserSession(userId)`: create a fresh session, reset a stale one
(preserving a known name by jumping to `MENU`), or just touch
`last_interaction`. -/
def getUserSession (stored : Option Session) (userId : String) (now : ℚ) : Session :=
  match stored with
  | none =>
      ⟨userId, "LANGUAGE_SELECT", none, "en", none, now, none, none⟩
  | some s =>
      if now - s.last_interaction > conversationTimeout then
        if jsTruthyStr s.user_name then
          { s with current_state := "MENU", last_option := none, last_interaction := now }
        else
          { s with current_state := "LANGUAGE_SELECT", last_option := none,
                   last_interaction := now }
      else
        { s with last_interaction := now }

/-- `updateUserSession(session, newState, newLastOption, newLanguage)`:
overwrites state, last option and interaction time; the language only when
`newLanguage` is truthy. -/
def updateUserSession (session : Session) (newState : String)
    (newLastOption : Option String) (newLanguage : Option String) (now : ℚ) : Session :=
  { session with
    current_state := newState
    last_option := newLastOption
    language := if jsTruthyStr newLanguage then newLanguage.getD session.language
                else session.language
    last_interaction := now }

/-! ## String helpers (`src/unnamed/part_001` = `utils/userHelper.js`, and the
in-line cleaning used by the link endpoints) -/

/-- Whether `pre` is a prefix of `l`. -/
def isPrefixChars : List Char → List Char → Bool
  | [], _ => true
  | _ :: _, [] => false
  | a :: as, b :: bs => a = b && isPrefixChars as bs

/-- Whether `needle` occurs inside `hay`. -/
def isInfixChars (needle : List Char) : List Char → Bool
  | [] => needle.isEmpty
  | b :: bs => isPrefixChars needle (b :: bs) || isInfixChars needle bs

/-- Whether `hay` contains `needle` as a substring (JS `String.includes`). -/
def strContains (hay needle : String) : Bool := isInfixChars needle.data hay.data

/-- Remove the first occurrence of `pat` from `l`. -/
def removeFirstChars (pat : List Char) : List Char → List Char
  | [] => []
  | c :: cs =>
      if isPrefixChars pat (c :: cs) then (c :: cs).drop pat.length
      else c :: removeFirstChars pat cs

/-- Remove every occurrence of `pat` from the list (fuelled so the recursion
is structural; called with the list length as fuel, which always suffices). -/
def removeAllChars (pat : List Char) : ℕ → List Char → List Char
  | _, [] => []
  | 0, l => l
  | fuel + 1, c :: cs =>
      if !pat.isEmpty && isPrefixChars pat (c :: cs) then
        removeAllChars pat fuel ((c :: cs).drop pat.length)
      else c :: removeAllChars pat fuel cs

/-- Remove the first occurrence of `pat` from `s`
(JS `s.replace('pat', '')` / a non-global non-anchored regex). -/
def replaceFirst (s pat : String) : String :=
  String.mk (removeFirstChars pat.data s.data)

/-- Remove every occurrence of `pat` from `s`
(JS `s.replace(/pat/g, '')`). -/
def removeAll (s pat : String) : String :=
  String.mk (removeAllChars pat.data s.data.length s.data)

/-- Strip a single leading `'+'` (the regex `^\+`). -/
def stripOnePlus (s : String) : String :=
  match s.data with
  | '+' :: rest => String.mk rest
  | _ => s

/-- ASCII lower-casing of one character (the identifiers and commands this
system compares are ASCII, where JS `toLowerCase` acts exactly like this). -/
def charLower (c : Char) : Char :=
  if 'A' ≤ c ∧ c ≤ 'Z' then Char.ofNat (c.toNat + 32) else c

/-- JS `s.toLowerCase()` on the ASCII strings the dispatch compares. -/
def strToLower (s : String) : String := String.mk (s.data.map charLower)

/-- `normalizeUserId(userId, withTag)` from `utils/userHelper.js`: remove every
`whatsapp:` tag (the source regex also eats trailing spaces of the tag, which
never occur in the identifiers the system produces), strip all leading `'+'`,
and optionally re-attach the canonical `whatsapp:+` tag. -/
def normalizeUserId (userId : String) (withTag : Bool := true) : String :=
  if userId = "" then (if withTag then "whatsapp:+unknown" else "unknown")
  else
    let cleanId := String.mk ((removeAll userId "whatsapp:").data.dropWhile (· = '+'))
    if withTag then "whatsapp:+" ++ cleanId else cleanId

/-! ## Outbound WhatsApp messaging, `src/utils/whatsapp.js`

Delivery is the one genuinely external effect; it is abstracted by an oracle
`sendOk : String → Bool` stating, per recipient string handed to the Twilio
client, whether `messages.create` resolves (`true`) or throws (`false`). -/

/-- `sendWhatsAppMessage(to, body)`: throws (`false`) on a falsy recipient,
otherwise normalizes the recipient and attempts delivery. -/
def sendWhatsAppMessage (sendOk : String → Bool) (recipient : String) : Bool :=
  if recipient = "" then false else sendOk (normalizeUserId recipient)

/-- `formatPhoneNumber(phone)` from `utils/whatsapp.js`: `none` for a falsy
phone; otherwise keep digits, drop leading zeros, prepend the country code for
bare 10-digit numbers, and attach `whatsapp:+` unless already tagged. -/
def formatPhoneNumber (phone : String) : Option String :=
  if phone = "" then none
  else
    let cleaned := (phone.data.filter Char.isDigit).dropWhile (· = '0')
    let cleaned := if !(cleaned.take 2 = ['9', '1'] : Bool) && cleaned.length = 10 then
        '9' :: '1' :: cleaned
      else cleaned
    if !(isPrefixChars "whatsapp:".data phone.data) then
      some ("whatsapp:+" ++ String.mk cleaned)
    else some phone

/-- `notifyDivisionOfficers(query, division)`: messages up to the first two
active officers, primary phone first, alternate phone on primary failure,
collecting one contact entry per successful send.  Per-officer errors are
caught and never abort the loop. -/
def notifyDivisionOfficers (sendOk : String → Bool) (now : ℚ)
    (division : Division) : List Contact :=
  if division.officers.isEmpty then []
  else
    let activeOfficers := (division.officers.filter (·.isActive)).take 2
    if activeOfficers.isEmpty then []
    else
      activeOfficers.foldl
        (fun acc officer =>
          let primarySent : Option String :=
            if officer.phone ≠ "" then
              match formatPhoneNumber officer.phone with
              | some p => if sendOk p then some p else none
              | none => none
            else none
          match primarySent with
          | some p => acc ++ [⟨p, now⟩]
          | none =>
            match officer.alternate_phone with
            | some alt =>
              if alt ≠ "" && alt ≠ officer.phone then
                match formatPhoneNumber alt with
                | some p => if sendOk p then acc ++ [⟨p, now⟩] else acc
                | none => acc
              else acc
            | none => acc)
        []

/-! ## Localized outbound messages

`getText(key, language, ...args)` renders a template; the embedding keeps the
message symbolic: the template key plus its arguments. -/

/-- An outbound message descriptor (template key + arguments). -/
inductive Msg where
  | languagePrompt (lang : String)
  | nameRequest (lang : String)
  | nameConfirmation (lang : String) (name : String)
  | mainMenu (lang : String)
  | cameraInstructions (lang : String) (url : String)
  | joinFormLink (lang : String)
  | suggestionResponse (lang : String)
  | reportError (lang : String)
  | locationOutsideJurisdiction (lang : String)
  | notificationFailed (lang : String)
  | locationMissingHint (lang : String)
  | reportResponse (lang : String) (reportType : String) (hasPhoto : Bool)
  | joinResponse (lang : String)
  | techDifficulties
  | seq (first second : Msg)
deriving DecidableEq, Repr

/-! ## Report-type code mapping -/

/-- The numeric-code → category-label table repeated throughout the source. -/
def reportTypes : List (String × String) :=
  [("1", "Traffic Violation"), ("2", "Traffic Congestion"), ("3", "Irregularity"),
   ("4", "Road Damage"), ("5", "Illegal Parking"), ("6", "Traffic Signal Issue"),
   ("7", "Suggestion")]

/-- `getReportTypeText` / the `reportTypes[reportType] || 'Report'` lookups. -/
def getReportTypeText (reportType : Option String) : String :=
  (reportType.bind (fun t => (reportTypes.find? (·.1 = t)).map (·.2))).getD "Report"

/-- The `switch (lastOption)` of the webhook location handler
(default `'General Report'`). -/
def reportTypeFromOption (lastOption : Option String) : String :=
  (lastOption.bind (fun t => (reportTypes.find? (·.1 = t)).map (·.2))).getD "General Report"

/-- `a || null` on an optional string. -/
def jsOrNull (a : Option String) : Option String :=
  match a with
  | some s => if s == "" then none else some s
  | none => none

/-- The address stored with a report: `address || 'Unknown location'`. -/
def addrOrUnknown (address : Option String) : Addr :=
  match jsOrNull address with
  | some a => Addr.provided a
  | none => Addr.unknownLoc

/-- The address stored with a webhook location report:
`locationAddress || raw-coordinate text`. -/
def addrOrCoords (address : Option String) (latv lngv : JSValue) : Addr :=
  match jsOrNull address with
  | some a => Addr.provided a
  | none => Addr.rawCoords latv lngv

/-- `Session.findOne({user_id: {$regex: digits}})`: first session whose
user id contains the digits of the cleaned user id. -/
def findSessionByUser (sessions : List Session) (cleanUserId : String) : Option Session :=
  sessions.find? (fun s => strContains s.user_id (replaceFirst cleanUserId "whatsapp:+"))

/-- The `userName` lookup shared by the report-processing functions
(`'Anonymous'` unless a session with a truthy `user_name` is found). -/
def lookupUserName (sessions : List Session) (cleanUserId : String) : String :=
  match findSessionByUser sessions cleanUserId with
  | some s => if jsTruthyStr s.user_name then s.user_name.getD "" else "Anonymous"
  | none => "Anonymous"

/-! ## Environment for the request handlers -/

/-- The external collaborators of a request: the division store, the location
cache, the delivery oracle, the capture-link URL generator outcome
(`none` = it threw), the image-upload outcome (`none` = it threw, report
continues without a photo) and the current time. -/
structure Env where
  divisions : List Division
  cache : Cache
  sendOk : String → Bool
  captureUrl : Option String
  uploadUrl : Option String
  now : ℚ

/-! ## The WhatsApp webhook, `src/unnamed/part_002` lines 913-1358

The handler loads the session, dispatches on `current_state` through the
nested-conditional state machine, persists any resulting query documents,
updates the session and sends one response message to the user.  The incoming
media attachment is downloaded and uploaded at the top of the handler but its
URL is never used by the dispatch, so it is omitted here. -/

/-- The inbound webhook payload fields the dispatch reads. -/
structure WebhookReq where
  Body : String
  From : String
  Latitude : JSValue
  Longitude : JSValue
  Address : Option String
deriving Repr

/-- What one dispatch branch produces: the response message, the state-machine
updates, the (possibly mutated) session object and the persisted queries. -/
structure DispatchOut where
  message : Msg
  newState : String
  newLastOption : Option String
  newLanguage : String
  session : Session
  saved : List Query
deriving Repr

/-- The inline officer fan-out of the webhook location branch (lines
1168-1214): up to 2 active officers, primary phone only (no alternate in this
path), one contact entry per successful send; per-officer failures are caught
and skipped. -/
def webhookNotifiedOfficers (sendOk : String → Bool) (now : ℚ) (d : Division) :
    List Contact :=
  if !d.officers.isEmpty then
    let activeOfficers := d.officers.filter (·.isActive)
    let officersToNotify := activeOfficers.take 2
    if !officersToNotify.isEmpty then
      (officersToNotify.filter (fun o => sendWhatsAppMessage sendOk o.phone)).map
        (fun o => (⟨o.phone, now⟩ : Contact))
    else []
  else []

/-- The `AWAITING_LOCATION` branch (lines 1094-1282).  Its two rejection paths
(outside jurisdiction, notification failure) update the session and send the
response inline before an early `return`; since those inline operations are
the same `updateUserSession` + send the common tail performs, the branch is
expressed as a `DispatchOut` like every other branch. -/
def handleAwaitingLocation (env : Env) (req : WebhookReq) (session : Session)
    (userLanguage : String) : DispatchOut × Cache :=
  if req.Latitude.truthy && req.Longitude.truthy then
    match findDivisionForLocation env.cache env.divisions req.Latitude req.Longitude with
    | (none, c1, _) =>
        (⟨Msg.locationOutsideJurisdiction userLanguage, "MENU", none, userLanguage,
          session, []⟩, c1)
    | (some d, c1, _) =>
        let reportType := reportTypeFromOption session.last_option
        let description := jsOrStr session.last_description "No description provided"
        let photoUrl := jsOrNull session.last_photo_url
        let newQuery : Query :=
          { user_id := req.From
            user_name := jsOrStr session.user_name "Anonymous"
            query_type := reportType
            description := some description
            photo_url := photoUrl
            location := some
              ⟨req.Latitude.toNumber, req.Longitude.toNumber,
               addrOrCoords req.Address req.Latitude req.Longitude⟩
            status := "Pending"
            division := some d.id
            divisionName := some d.name
            divisionNotified := false
            officersNotified := [] }
        let notifiedOfficers := webhookNotifiedOfficers env.sendOk env.now d
        let divisionNotified := !notifiedOfficers.isEmpty
        if !divisionNotified then
          -- zero officers notified ⇒ the query is never saved (lines 1216-1235)
          (⟨Msg.notificationFailed userLanguage, "MENU", none, userLanguage,
            session, []⟩, c1)
        else
          -- save with notification details, then best-effort re-notification
          -- and email (no further persisted effect), clear the draft fields
          let savedQuery :=
            { newQuery with divisionNotified := true, officersNotified := notifiedOfficers }
          let session2 := { session with last_description := none, last_photo_url := none }
          (⟨Msg.reportResponse userLanguage reportType photoUrl.isSome, "MENU", none,
            userLanguage, session2, [savedQuery]⟩, c1)
  else
    (⟨Msg.locationMissingHint userLanguage, "AWAITING_LOCATION", session.last_option,
      userLanguage, session, []⟩, env.cache)

/-- The `AWAITING_JOIN` free-text parse: last labeled line wins per field,
missing labels default to the empty string. -/
def parseJoinFields (userMessage : String) : String × String × String × String :=
  (userMessage.splitOn "\n").foldl
    (fun acc line =>
      let low := strToLower line
      let value :=
        match (line.splitOn ":").get? 1 with
        | some v => v.trim
        | none => ""
      if strContains low "name:" then (value, acc.2.1, acc.2.2.1, acc.2.2.2)
      else if strContains low "email:" then (acc.1, value, acc.2.2.1, acc.2.2.2)
      else if strContains low "phone:" then (acc.1, acc.2.1, value, acc.2.2.2)
      else if strContains low "location:" then (acc.1, acc.2.1, acc.2.2.1, value)
      else acc)
    ("", "", "", "")

/-- The state dispatch of the webhook handler (lines 945-1336), producing the
branch outcome and the updated location cache. -/
def processMessage (env : Env) (req : WebhookReq) (session : Session) :
    DispatchOut × Cache :=
  let userMessage := req.Body
  let currentState := session.current_state
  let lastOption := session.last_option
  let userLanguage := if session.language = "" then "en" else session.language
  if userMessage ≠ "" && strToLower userMessage = "reset" then
    (⟨Msg.languagePrompt "en", "LANGUAGE_SELECT", none, userLanguage, session, []⟩, env.cache)
  else if currentState = "LANGUAGE_SELECT" then
    if userMessage = "1" then
      if jsTruthyStr session.user_name then
        (⟨Msg.seq (Msg.nameConfirmation "en" (session.user_name.getD "")) (Msg.mainMenu "en"),
          "MENU", lastOption, "en", session, []⟩, env.cache)
      else
        (⟨Msg.nameRequest "en", "NAME_COLLECTION", lastOption, "en", session, []⟩, env.cache)
    else if userMessage = "2" then
      if jsTruthyStr session.user_name then
        (⟨Msg.seq (Msg.nameConfirmation "mr" (session.user_name.getD "")) (Msg.mainMenu "mr"),
          "MENU", lastOption, "mr", session, []⟩, env.cache)
      else
        (⟨Msg.nameRequest "mr", "NAME_COLLECTION", lastOption, "mr", session, []⟩, env.cache)
    else
      (⟨Msg.languagePrompt userLanguage, currentState, lastOption, userLanguage,
        session, []⟩, env.cache)
  else if currentState = "NAME_COLLECTION" then
    let session2 := { session with user_name := some userMessage }
    (⟨Msg.seq (Msg.nameConfirmation userLanguage userMessage) (Msg.mainMenu userLanguage),
      "MENU", lastOption, userLanguage, session2, []⟩, env.cache)
  else if userMessage ≠ "" && strToLower userMessage = "menu" then
    (⟨Msg.mainMenu userLanguage, "MENU", none, userLanguage, session, []⟩, env.cache)
  else if currentState = "MENU" then
    if userMessage = "1" || userMessage = "2" || userMessage = "3" || userMessage = "4" ||
        userMessage = "5" || userMessage = "6" || userMessage = "7" then
      match env.captureUrl with
      | some url =>
          (⟨Msg.cameraInstructions userLanguage url, "AWAITING_REPORT", some userMessage,
            userLanguage, session, []⟩, env.cache)
      | none =>
          -- capture-URL generation threw: apologize, keep the state unchanged
          (⟨Msg.techDifficulties, currentState, lastOption, userLanguage, session, []⟩,
            env.cache)
    else if userMessage = "8" then
      (⟨Msg.joinFormLink userLanguage, "JOIN_TEAM_LINK_SENT", some "8", userLanguage,
        session, []⟩, env.cache)
    else
      (⟨Msg.mainMenu userLanguage, currentState, lastOption, userLanguage, session, []⟩,
        env.cache)
  else if currentState = "AWAITING_REPORT" then
    (⟨Msg.mainMenu userLanguage, "MENU", none, userLanguage, session, []⟩, env.cache)
  else if currentState = "AWAITING_SUGGESTION_TEXT" then
    let newQuery : Query :=
      { user_id := req.From
        user_name := jsOrStr session.user_name "Anonymous"
        query_type := "Suggestion"
        description := some userMessage
        photo_url := none
        location := none
        status := "Pending"
        division := none
        divisionName := none
        divisionNotified := false
        officersNotified := [] }
    (⟨Msg.suggestionResponse userLanguage, "MENU", none, userLanguage, session,
      [newQuery]⟩, env.cache)
  else if currentState = "AWAITING_LOCATION" then
    handleAwaitingLocation env req session userLanguage
  else if currentState = "AWAITING_JOIN" then
    let parsed := parseJoinFields userMessage
    let joinQuery : Query :=
      { user_id := req.From
        user_name := jsOrStr session.user_name "Anonymous"
        query_type := "Join Request"
        name := some parsed.1
        email := some parsed.2.1
        phone := some parsed.2.2.1
        description := some userMessage
        photo_url := none
        location := none
        status := "Pending"
        division := none
        divisionName := none
        divisionNotified := false
        officersNotified := [] }
    (⟨Msg.joinResponse userLanguage, "MENU", none, userLanguage, session,
      [joinQuery]⟩, env.cache)
  else
    (⟨Msg.mainMenu userLanguage, "MENU", none, userLanguage, session, []⟩, env.cache)

/-- The observable outcome of one webhook request. -/
structure WebhookResult where
  responseMessage : Msg
  finalSession : Session
  savedQueries : List Query
  httpStatus : ℕ
  httpBody : String
deriving Repr

/-- The empty TwiML acknowledgement envelope. -/
def emptyEnvelope : String :=
  "<?xml version=\"1.0\" encoding=\"UTF-8\"?><Response></Response>"

/-- `app.post('/webhook')`: load/refresh the session, dispatch, update the
session, send the response to the user.  Every path ends in a
`messages.create` to the sender; if that send throws, the top-level catch
answers 500 with the same empty envelope, otherwise the handler answers 200. -/
def webhookHandler (env : Env) (req : WebhookReq) (stored : Option Session) :
    WebhookResult :=
  let userSession := getUserSession stored req.From env.now
  let out := (processMessage env req userSession).1
  let finalSession :=
    updateUserSession out.session out.newState out.newLastOption (some out.newLanguage) env.now
  let status := if env.sendOk req.From then 200 else 500
  ⟨out.message, finalSession, out.saved, status, emptyEnvelope⟩

/-! ## The web capture-form report pipeline,
`src/unnamed/part_002` lines 467-840 -/

/-- The result object of the report-processing functions:
`{success, queryId?, division?}` plus the final persisted state of the query
documents they created and the updated cache. -/
structure ProcessResult where
  success : Bool
  saved : List Query
  division : Option String
  cache2 : Cache

/-- `processReportWithoutImage` (lines 594-706).  If both coordinates are
truthy the division is resolved and an unresolvable location aborts with
nothing persisted; otherwise resolution is skipped entirely.  The query is
then SAVED, the submitter confirmation is sent (a send failure hits the
function's catch, leaving the already-saved query in place), and only after
that are division officers notified, the notification outcome being patched
onto the saved document only when at least one officer was reached. -/
def processReportWithoutImage (env : Env) (sessions : List Session)
    (latitude longitude : JSValue) (description : Option String)
    (userId : String) (reportType : Option String) (address : Option String) :
    ProcessResult :=
  let cleanUserId := normalizeUserId userId
  let queryTypeText := getReportTypeText reportType
  let resolved : Option Division × String × Cache :=
    if latitude.truthy && longitude.truthy then
      match findDivisionForLocation env.cache env.divisions latitude longitude with
      | (some d, c1, _) => (some d, d.name, c1)
      | (none, c1, _) => (none, "Unknown", c1)
    else (none, "Unknown", env.cache)
  if latitude.truthy && longitude.truthy && resolved.1.isNone then
    -- outside jurisdiction: inform the user and stop, nothing persisted
    { success := false, saved := [], division := none, cache2 := resolved.2.2 }
  else
    let userName := lookupUserName sessions cleanUserId
    let newQuery : Query :=
      { user_id := cleanUserId
        user_name := userName
        query_type := queryTypeText
        description := description
        photo_url := none
        location := some ⟨latitude.toNumber, longitude.toNumber, addrOrUnknown address⟩
        status := "Pending"
        division := resolved.1.map (·.id)
        divisionName := some resolved.2.1
        divisionNotified := false
        officersNotified := [] }
    if !(sendWhatsAppMessage env.sendOk cleanUserId) then
      -- the confirmation send threw after the save: catch block runs, the
      -- document stays persisted with no notification recorded
      { success := false, saved := [newQuery], division := none, cache2 := resolved.2.2 }
    else
      match resolved.1 with
      | some d =>
          let notifiedContacts := notifyDivisionOfficers env.sendOk env.now d
          let finalQuery :=
            if !notifiedContacts.isEmpty then
              { newQuery with divisionNotified := true, officersNotified := notifiedContacts }
            else newQuery
          { success := true, saved := [finalQuery], division := some resolved.2.1,
            cache2 := resolved.2.2 }
      | none =>
          { success := true, saved := [newQuery], division := some resolved.2.1,
            cache2 := resolved.2.2 }

/-- `processReportInBackground` (lines 713-840), the with-image variant:
resolve the division (unconditionally, rejecting with nothing persisted when
unresolved), upload the image (failure caught: continue without photo), SAVE
the query, send the confirmation (failure leaves the saved query as is),
then notify officers and patch the notification outcome on success. -/
def processReportInBackground (env : Env) (sessions : List Session)
    (latitude longitude : JSValue) (description : Option String)
    (userId : String) (reportType : Option String) (address : Option String) :
    ProcessResult :=
  let cleanUserId := normalizeUserId userId
  match findDivisionForLocation env.cache env.divisions latitude longitude with
  | (none, c1, _) =>
      { success := false, saved := [], division := none, cache2 := c1 }
  | (some d, c1, _) =>
      let uploadedUrl := env.uploadUrl
      let userName := lookupUserName sessions cleanUserId
      let query : Query :=
        { user_id := cleanUserId
          user_name := userName
          query_type := getReportTypeText reportType
          description := some (jsOrStr description "No description provided")
          photo_url := uploadedUrl
          location := some ⟨latitude.toNumber, longitude.toNumber, addrOrUnknown address⟩
          status := "Pending"
          division := some d.id
          divisionName := some d.name
          divisionNotified := false
          officersNotified := [] }
      if !(sendWhatsAppMessage env.sendOk cleanUserId) then
        { success := false, saved := [query], division := none, cache2 := c1 }
      else
        let notifiedContacts := notifyDivisionOfficers env.sendOk env.now d
        let finalQuery :=
          if !notifiedContacts.isEmpty then
            { query with divisionNotified := true, officersNotified := notifiedContacts }
          else query
        { success := true, saved := [finalQuery], division := some d.name, cache2 := c1 }

/-- `ReportLink.findOneAndUpdate({linkId, $or:[{userId},{userId:'+'+userId}]},
{$set:{used:true, usedAt:now}})`: mark the first matching link used. -/
def markLinkUsed : List RLink → String → String → ℚ → List RLink
  | [], _, _, _ => []
  | l :: rest, lid, uid, now =>
      if l.linkId = lid && (l.userId = uid || l.userId = "+" ++ uid) then
        { l with used := true, usedAt := some now } :: rest
      else l :: markLinkUsed rest lid uid now

/-- The JSON outcome of `POST /api/report`. -/
inductive ApiResp where
  | missingFields
  | outsideJurisdiction
  | internalError
  | ok (divisionName : String)
deriving DecidableEq, Repr

/-- The observable outcome of one `POST /api/report` request. -/
structure ApiResult where
  status : ℕ
  resp : ApiResp
  links2 : List RLink
  saved : List Query

/-- `app.post('/api/report')` (lines 467-590): validate the required fields,
mark the capture link used (BEFORE any jurisdiction check), resolve the
division (rejecting `outsideJurisdiction` with no report persisted when
unresolved — though the link mutation has already happened), then run the
with-image or without-image processing to completion and answer 200. -/
def apiReport (env : Env) (sessions : List Session) (links : List RLink)
    (userId reportType : Option String) (description : Option String)
    (latitude longitude : JSValue) (address : Option String)
    (linkId : Option String) (hasFile : Bool) : ApiResult :=
  if !(jsTruthyStr userId) || !(jsTruthyStr reportType) then
    ⟨400, ApiResp.missingFields, links, []⟩
  else
    let uid := userId.getD ""
    let cleanUserId := normalizeUserId uid
    let links2 :=
      if jsTruthyStr linkId then
        markLinkUsed links (linkId.getD "") (normalizeUserId uid false) env.now
      else links
    match findDivisionForLocation env.cache env.divisions latitude longitude with
    | (none, _, _) =>
        if sendWhatsAppMessage env.sendOk cleanUserId then
          ⟨400, ApiResp.outsideJurisdiction, links2, []⟩
        else
          -- the outside-jurisdiction notice threw before the 400 was written
          ⟨500, ApiResp.internalError, links2, []⟩
    | (some _, c1, _) =>
        let result :=
          if hasFile then
            processReportInBackground { env with cache := c1 } sessions latitude longitude
              description uid reportType address
          else
            processReportWithoutImage { env with cache := c1 } sessions latitude longitude
              description uid reportType address
        ⟨200, ApiResp.ok (jsOrStr result.division "Unknown"), links2, result.saved⟩

/-! ## Capture-link validity, `src/unnamed/part_002` lines 843-910 -/

/-- The JSON outcome of `GET /api/check-link-validity`. -/
inductive LinkCheck where
  | missingParams
  | notFound
  | alreadyUsed
  | expired
  | valid
deriving DecidableEq, Repr

/-- The `ReportLink.findOne` of the validity check: by link id and
plus-tolerant user id. -/
def linkFindOne (links : List RLink) (lid cleanUserId : String) : Option RLink :=
  links.find? (fun l => l.linkId = lid &&
    (l.userId = cleanUserId || l.userId = "+" ++ cleanUserId))

/-- The user-id cleaning of the validity check: remove the first
`whatsapp:` tag, then one leading plus sign. -/
def cleanForLinkLookup (userId : String) : String :=
  stripOnePlus (replaceFirst userId "whatsapp:")

/-- `app.get('/api/check-link-validity')`: missing parameters → 400; then the
link is looked up by id and (plus-tolerant) user id; a missing link reports
`notFound` (404), a used one `alreadyUsed` (403), one older than 5 minutes
`expired` (403), otherwise `valid` (200). -/
def checkLinkValidity (links : List RLink) (linkId userId : Option String)
    (now : ℚ) : LinkCheck × ℕ :=
  if !(jsTruthyStr linkId) || !(jsTruthyStr userId) then
    (LinkCheck.missingParams, 400)
  else
    match linkFindOne links (linkId.getD "") (cleanForLinkLookup (userId.getD "")) with
    | none => (LinkCheck.notFound, 404)
    | some link =>
        if link.used then (LinkCheck.alreadyUsed, 403)
        else
          let diffMinutes := |now - link.createdAt| / 60000
          if diffMinutes > 5 then (LinkCheck.expired, 403)
          else (LinkCheck.valid, 200)

/-! ## Concrete fixtures for witnesses and counterexamples -/

/-- A square test ring around the origin (vertices `(±10, ±10)`,
`(x, y)` = `(lng, lat)`). -/
def sampleRing : List Vertex :=
  [(some (-10), some (-10)), (some 10, some (-10)), (some 10, some 10),
   (some (-10), some 10)]

/-- A division carrying the square ring and an empty officer roster. -/
def divNoOfficers : Division := ⟨1, "D1", some [sampleRing], []⟩

/-- A division carrying the square ring and one active officer. -/
def divOneOfficer : Division :=
  ⟨2, "D2", some [sampleRing], [⟨"Patil", "9876543210", none, true⟩]⟩

/-- An environment over the given division store in which every outbound send
succeeds. -/
def envAllSendOk (divisions : List Division) : Env :=
  ⟨divisions, [], fun _ => true, none, none, 0⟩

/-- An environment in which every outbound send throws. -/
def envNoSendOk (divisions : List Division) : Env :=
  ⟨divisions, [], fun _ => false, none, none, 0⟩

/-- A session fixture parameterized by conversation state. -/
def sessionIn (state : String) : Session :=
  ⟨"whatsapp:+15550001", state, none, "en", some "Asha", 0, none, none⟩

/-- A webhook request fixture: text body only, no location. -/
def textReq (body : String) : WebhookReq :=
  ⟨body, "whatsapp:+15550001", jsNull, jsNull, none⟩

/-- A webhook request fixture carrying a location inside the square ring
(`latitude "2"`, `longitude "3"` as numeric strings). -/
def locationReq : WebhookReq :=
  ⟨"", "whatsapp:+15550001", jsNumStr 2, jsNumStr 3, none⟩

/-- The query document the without-image pipeline persists for the
`latitude "2"`, `longitude "3"` Road-Damage submission used as fixture. -/
def savedRoadDamageQuery : Query :=
  ⟨"whatsapp:+15550001", "Anonymous", "Road Damage", some "pothole", none,
   some ⟨some 2, some 3, Addr.unknownLoc⟩, "Pending", some 1, some "D1", false, [],
   none, none, none⟩

/-! # Theorems settling the specification claims -/

/-- The webhook officer fan-out, in closed form: the branch structure for
empty rosters collapses into the filter-map itself. -/
theorem webhookNotifiedOfficers_eq (sendOk : String → Bool) (now : ℚ) (d : Division) :
    webhookNotifiedOfficers sendOk now d =
      (((d.officers.filter (·.isActive)).take 2).filter
        (fun o => sendWhatsAppMessage sendOk o.phone)).map
        (fun o => (⟨o.phone, now⟩ : Contact)) := by
  unfold webhookNotifiedOfficers
  by_cases h1 : d.officers.isEmpty
  · have h0 : d.officers = [] := List.isEmpty_iff.mp h1
    simp [h1, h0]
  · by_cases h2 : ((d.officers.filter (·.isActive)).take 2).isEmpty
    · have h0 : (d.officers.filter (·.isActive)).take 2 = [] := List.isEmpty_iff.mp h2
      simp [h1, h2, h0]
    · simp [h1, h2]

/-- C10: `updateUserSession` always overwrites `current_state`, `last_option`
and `last_interaction`; it overwrites `language` only when the new language is
truthy, leaving it unchanged when the argument is absent or falsy; and it
leaves every other session field (`user_id`, `user_name`, `last_description`,
`last_photo_url`) untouched. -/
theorem c10_updateUserSession_frame (s : Session) (newState : String)
    (newLastOption : Option String) (newLanguage : Option String) (now : ℚ) :
    (updateUserSession s newState newLastOption newLanguage now).current_state = newState ∧
    (updateUserSession s newState newLastOption newLanguage now).last_option = newLastOption ∧
    (updateUserSession s newState newLastOption newLanguage now).last_interaction = now ∧
    (jsTruthyStr newLanguage = false →
      (updateUserSession s newState newLastOption newLanguage now).language = s.language) ∧
    (updateUserSession s newState newLastOption newLanguage now).user_id = s.user_id ∧
    (updateUserSession s newState newLastOption newLanguage now).user_name = s.user_name ∧
    (updateUserSession s newState newLastOption newLanguage now).last_description
      = s.last_description ∧
    (updateUserSession s newState newLastOption newLanguage now).last_photo_url
      = s.last_photo_url := by
  refine ⟨rfl, rfl, rfl, ?_, rfl, rfl, rfl, rfl⟩
  intro h
  simp [updateUserSession, h]

/-- Witness for C10 at a concrete session and a falsy (`none`) new language:
the language field survives. -/
theorem c10_updateUserSession_frame_witness :
    (updateUserSession ⟨"u1", "MENU", none, "en", some "Asha", 0, none, none⟩
        "AWAITING_REPORT" (some "1") none 5).language = "en" :=
  (c10_updateUserSession_frame ⟨"u1", "MENU", none, "en", some "Asha", 0, none, none⟩
    "AWAITING_REPORT" (some "1") none 5).2.2.2.1 rfl

/-- C5: `checkLinkValidity` checks existence, then the used flag, then age:
a missing link reports not-found; an existing used link reports already-used
(whatever its age); an existing unused link older than 5 minutes reports
expired; otherwise valid — in particular valid at age 4:59 (299000 ms) and
expired at age 5:01 (301000 ms). -/
theorem c5_link_validation_order (links : List RLink) (lid uid : String) (now : ℚ)
    (hlid : lid ≠ "") (huid : uid ≠ "") :
    (linkFindOne links lid (cleanForLinkLookup uid) = none →
      checkLinkValidity links (some lid) (some uid) now = (LinkCheck.notFound, 404)) ∧
    (∀ link, linkFindOne links lid (cleanForLinkLookup uid) = some link →
      link.used = true →
      checkLinkValidity links (some lid) (some uid) now = (LinkCheck.alreadyUsed, 403)) ∧
    (∀ link, linkFindOne links lid (cleanForLinkLookup uid) = some link →
      link.used = false → |now - link.createdAt| / 60000 > 5 →
      checkLinkValidity links (some lid) (some uid) now = (LinkCheck.expired, 403)) ∧
    (∀ link, linkFindOne links lid (cleanForLinkLookup uid) = some link →
      link.used = false → ¬(|now - link.createdAt| / 60000 > 5) →
      checkLinkValidity links (some lid) (some uid) now = (LinkCheck.valid, 200)) ∧
    (∀ link, linkFindOne links lid (cleanForLinkLookup uid) = some link →
      link.used = false → now - link.createdAt = 299000 →
      checkLinkValidity links (some lid) (some uid) now = (LinkCheck.valid, 200)) ∧
    (∀ link, linkFindOne links lid (cleanForLinkLookup uid) = some link →
      link.used = false → now - link.createdAt = 301000 →
      checkLinkValidity links (some lid) (some uid) now = (LinkCheck.expired, 403)) := by
  have hcond : (!(jsTruthyStr (some lid)) || !(jsTruthyStr (some uid))) = false := by
    simp [jsTruthyStr, hlid, huid]
  refine ⟨?_, ?_, ?_, ?_, ?_, ?_⟩
  · intro h; simp [checkLinkValidity, hcond, h]
  · intro link h hu; simp [checkLinkValidity, hcond, h, hu]
  · intro link h hu hexp; simp [checkLinkValidity, hcond, h, hu, hexp]
  · intro link h hu hexp; simp [checkLinkValidity, hcond, h, hu, hexp]
  · intro link h hu hage
    have hle : ¬(|now - link.createdAt| / 60000 > 5) := by
      rw [hage, abs_of_nonneg (by norm_num : (0 : ℚ) ≤ 299000)]
      norm_num
    simp [checkLinkValidity, hcond, h, hu, hle]
  · intro link h hu hage
    have hgt : |now - link.createdAt| / 60000 > 5 := by
      rw [hage, abs_of_nonneg (by norm_num : (0 : ℚ) ≤ 301000)]
      norm_num
    simp [checkLinkValidity, hcond, h, hu, hgt]

/-- C2: a chat location report processed in state `AWAITING_LOCATION` whose
resolved division yields zero successfully notified active officers (in
particular an empty roster) is rejected with the `NOTIFICATION_FAILED`
message, no report is persisted, and the session moves to `MENU`. -/
theorem c2_notification_failed_rejects (env : Env) (req : WebhookReq)
    (stored : Option Session) (d : Division)
    (hreset : strToLower req.Body ≠ "reset")
    (hmenu : strToLower req.Body ≠ "menu")
    (hstate : (getUserSession stored req.From env.now).current_state = "AWAITING_LOCATION")
    (hlat : req.Latitude.truthy = true)
    (hlng : req.Longitude.truthy = true)
    (hdiv : (findDivisionForLocation env.cache env.divisions req.Latitude req.Longitude).1
      = some d)
    (hfail : ∀ o ∈ (d.officers.filter (·.isActive)).take 2,
      sendWhatsAppMessage env.sendOk o.phone = false) :
    (webhookHandler env req stored).savedQueries = [] ∧
    (webhookHandler env req stored).responseMessage =
      Msg.notificationFailed
        (if (getUserSession stored req.From env.now).language = "" then "en"
         else (getUserSession stored req.From env.now).language) ∧
    (webhookHandler env req stored).finalSession.current_state = "MENU" := by
  have hnil : ((d.officers.filter (·.isActive)).take 2).filter
      (fun o => sendWhatsAppMessage env.sendOk o.phone) = [] :=
    List.filter_eq_nil_iff.mpr (by intro o ho; simp [hfail o ho])
  have hzero : webhookNotifiedOfficers env.sendOk env.now d = [] := by
    rw [webhookNotifiedOfficers_eq, hnil]; rfl
  rcases hres : findDivisionForLocation env.cache env.divisions req.Latitude req.Longitude
    with ⟨r1, r2, r3⟩
  rw [hres] at hdiv
  subst hdiv
  refine ⟨?_, ?_, ?_⟩ <;>
    simp [webhookHandler, processMessage, handleAwaitingLocation, updateUserSession,
      hreset, hmenu, hstate, hlat, hlng, hres, hzero]

/-- Witness for C2: coordinates inside the square division with an empty
officer roster — rejection with `NOTIFICATION_FAILED`, nothing saved,
session at `MENU`. -/
theorem c2_notification_failed_rejects_witness :
    (webhookHandler (envAllSendOk [divNoOfficers]) locationReq
        (some (sessionIn "AWAITING_LOCATION"))).savedQueries = [] ∧
    (webhookHandler (envAllSendOk [divNoOfficers]) locationReq
        (some (sessionIn "AWAITING_LOCATION"))).responseMessage =
      Msg.notificationFailed "en" ∧
    (webhookHandler (envAllSendOk [divNoOfficers]) locationReq
        (some (sessionIn "AWAITING_LOCATION"))).finalSession.current_state = "MENU" := by
  have h := c2_notification_failed_rejects (envAllSendOk [divNoOfficers]) locationReq
    (some (sessionIn "AWAITING_LOCATION")) divNoOfficers
    (by decide) (by decide)
    (by norm_num [getUserSession, sessionIn, envAllSendOk, locationReq, conversationTimeout])
    rfl rfl
    (by norm_num [findDivisionForLocation, scanDivisions, divisionContains, isPointInPolygon,
      rayCastFold, edgePairs, edgeCrosses, sampleRing, divNoOfficers, jsNumStr, cacheGet,
      envAllSendOk, locationReq, List.rotate, List.find?])
    (by simp [divNoOfficers])
  norm_num [getUserSession, sessionIn, envAllSendOk, locationReq, conversationTimeout] at h
  exact h

/-- Any query the webhook location branch persists carries a resolved
division, the notified flag, and a non-empty notified-officer list (the save
is gated on at least one successful officer send). -/
theorem awaitLoc_saved_props (env : Env) (req : WebhookReq)
    (session : Session) (lang : String) :
    ∀ q ∈ (handleAwaitingLocation env req session lang).1.saved,
      q.division.isSome = true ∧ q.divisionNotified = true ∧ q.officersNotified ≠ [] := by
  unfold handleAwaitingLocation
  split
  · split
    · simp
    · dsimp only
      split
      · simp
      · next h =>
        intro q hq
        simp only [List.mem_singleton] at hq
        subst hq
        refine ⟨rfl, rfl, ?_⟩
        simpa using h
  · simp

set_option maxHeartbeats 1000000 in
/-- Any location-bearing query the webhook dispatch persists (on any branch)
carries a resolved division, the notified flag and a non-empty
notified-officer list; suggestion and join-request saves carry no location. -/
theorem processMessage_saved_props (env : Env) (req : WebhookReq) (s : Session) :
    ∀ q ∈ (processMessage env req s).1.saved, q.location.isSome = true →
      q.division.isSome = true ∧ q.divisionNotified = true ∧ q.officersNotified ≠ [] := by
  unfold processMessage
  dsimp only
  intro q hq hloc
  repeat' split at hq
  all_goals
    first
      | exact awaitLoc_saved_props env req s _ q hq
      | (simp at hq; try (subst hq; simp at hloc))

/-- Every query `processReportWithoutImage` persists for a submission with
truthy coordinates carries a resolved division (but, unlike the webhook path,
it is persisted regardless of the officer-notification outcome). -/
theorem processReportWithoutImage_division (env : Env) (sessions : List Session)
    (lat lng : JSValue) (desc : Option String) (uid : String) (rt : Option String)
    (addr : Option String) (hlat : lat.truthy = true) (hlng : lng.truthy = true) :
    ∀ q ∈ (processReportWithoutImage env sessions lat lng desc uid rt addr).saved,
      q.division.isSome = true := by
  unfold processReportWithoutImage
  intro q hq
  rcases hres : findDivisionForLocation env.cache env.divisions lat lng with ⟨r1, r2, r3⟩
  simp only [hres, hlat, hlng] at hq
  cases r1
  · simp at hq
  · repeat' split at hq
    all_goals simp_all

/-- Every query `processReportInBackground` persists carries a resolved
division (resolution is its first gate), again regardless of the
officer-notification outcome. -/
theorem processReportInBackground_division (env : Env) (sessions : List Session)
    (lat lng : JSValue) (desc : Option String) (uid : String) (rt : Option String)
    (addr : Option String) :
    ∀ q ∈ (processReportInBackground env sessions lat lng desc uid rt addr).saved,
      q.division.isSome = true := by
  unfold processReportInBackground
  intro q hq
  rcases hres : findDivisionForLocation env.cache env.divisions lat lng with ⟨r1, r2, r3⟩
  simp only [hres] at hq
  cases r1
  · simp at hq
  · repeat' split at hq
    all_goals simp_all

/-- C1 (counterexample): the claimed invariant fails on the web capture path —
`processReportWithoutImage` persists a location-bearing report even though
zero officer notifications were dispatched (empty roster), with
`divisionNotified = false`; the save happens before the officer fan-out. -/
theorem c1_persisted_without_notification :
    (processReportWithoutImage (envAllSendOk [divNoOfficers]) [] (jsNumStr 2)
        (jsNumStr 3) (some "pothole") "whatsapp:+15550001" (some "4") none).saved.map
      (fun q => (q.location.isSome, q.divisionNotified, q.officersNotified.isEmpty))
      = [(true, false, true)] := by
  norm_num [processReportWithoutImage, findDivisionForLocation, scanDivisions,
    divisionContains, isPointInPolygon, rayCastFold, edgePairs, edgeCrosses, sampleRing,
    divNoOfficers, jsNumStr, cacheGet, envAllSendOk, List.rotate, List.find?,
    lookupUserName, findSessionByUser, normalizeUserId, removeAll, removeAllChars,
    isPrefixChars, sendWhatsAppMessage, notifyDivisionOfficers, getReportTypeText,
    reportTypes, addrOrUnknown, jsOrNull]
  decide

/-- C1 as amended: the persist-only-if-notified invariant holds for every
location-bearing report the chat webhook persists (suggestions and join
requests, which carry no location there, are exempt); the web capture-form
paths guarantee only the division half — they persist the report after
division resolution but regardless of the officer-notification outcome. -/
theorem c1_location_report_invariant :
    (∀ (env : Env) (req : WebhookReq) (stored : Option Session),
      ∀ q ∈ (webhookHandler env req stored).savedQueries, q.location.isSome = true →
        q.division.isSome = true ∧ q.divisionNotified = true ∧ q.officersNotified ≠ []) ∧
    (∀ (env : Env) (sessions : List Session) (lat lng : JSValue) (desc : Option String)
        (uid : String) (rt addr : Option String),
      lat.truthy = true → lng.truthy = true →
      ∀ q ∈ (processReportWithoutImage env sessions lat lng desc uid rt addr).saved,
        q.division.isSome = true) ∧
    (∀ (env : Env) (sessions : List Session) (lat lng : JSValue) (desc : Option String)
        (uid : String) (rt addr : Option String),
      ∀ q ∈ (processReportInBackground env sessions lat lng desc uid rt addr).saved,
        q.division.isSome = true) :=
  ⟨fun env req stored q hq hloc =>
     processMessage_saved_props env req (getUserSession stored req.From env.now) q hq hloc,
   fun env sessions lat lng desc uid rt addr hlat hlng =>
     processReportWithoutImage_division env sessions lat lng desc uid rt addr hlat hlng,
   fun env sessions lat lng desc uid rt addr =>
     processReportInBackground_division env sessions lat lng desc uid rt addr⟩

/-- Witness for C1 as amended: the fixture Road-Damage submission persists
exactly the fixture query, and the invariant instance gives its resolved
division. -/
theorem c1_location_report_invariant_witness :
    savedRoadDamageQuery ∈ (processReportWithoutImage (envAllSendOk [divNoOfficers]) []
      (jsNumStr 2) (jsNumStr 3) (some "pothole") "whatsapp:+15550001" (some "4")
      none).saved ∧
    savedRoadDamageQuery.division.isSome = true := by
  have hsaved : (processReportWithoutImage (envAllSendOk [divNoOfficers]) []
      (jsNumStr 2) (jsNumStr 3) (some "pothole") "whatsapp:+15550001" (some "4")
      none).saved = [savedRoadDamageQuery] := by
    norm_num [processReportWithoutImage, findDivisionForLocation, scanDivisions,
      divisionContains, isPointInPolygon, rayCastFold, edgePairs, edgeCrosses, sampleRing,
      divNoOfficers, jsNumStr, cacheGet, envAllSendOk, List.rotate, List.find?,
      lookupUserName, findSessionByUser, normalizeUserId, removeAll, removeAllChars,
      isPrefixChars, sendWhatsAppMessage, notifyDivisionOfficers, getReportTypeText,
      reportTypes, addrOrUnknown, jsOrNull, savedRoadDamageQuery]
    decide
  have hmem : savedRoadDamageQuery ∈ (processReportWithoutImage (envAllSendOk [divNoOfficers]) []
      (jsNumStr 2) (jsNumStr 3) (some "pothole") "whatsapp:+15550001" (some "4")
      none).saved := by
    rw [hsaved]; exact List.mem_singleton_self _
  exact ⟨hmem, c1_location_report_invariant.2.1 (envAllSendOk [divNoOfficers]) []
    (jsNumStr 2) (jsNumStr 3) (some "pothole") "whatsapp:+15550001" (some "4") none
    rfl rfl savedRoadDamageQuery hmem⟩

/-- C8 (counterexample): an outside-jurisdiction web submission persists no
report, but it is NOT free of other mutations — the capture link passed with
the rejected submission has already been marked used (the link update runs
before the jurisdiction check). -/
theorem c8_link_mutated_counterexample :
    (apiReport (envAllSendOk []) [] [⟨"L1", "15550001", "4", 0, false, none⟩]
        (some "whatsapp:+15550001") (some "4") (some "d") (jsNumStr 2) (jsNumStr 3)
        none (some "L1") false).resp = ApiResp.outsideJurisdiction ∧
    (apiReport (envAllSendOk []) [] [⟨"L1", "15550001", "4", 0, false, none⟩]
        (some "whatsapp:+15550001") (some "4") (some "d") (jsNumStr 2) (jsNumStr 3)
        none (some "L1") false).saved = [] ∧
    (apiReport (envAllSendOk []) [] [⟨"L1", "15550001", "4", 0, false, none⟩]
        (some "whatsapp:+15550001") (some "4") (some "d") (jsNumStr 2) (jsNumStr 3)
        none (some "L1") false).links2.map (·.used) = [true] := by
  refine ⟨?_, ?_, ?_⟩ <;> decide

/-- C8 as amended: a geolocation-requiring submission resolving to no division
is rejected with the outside-jurisdiction response and no report record is
created — on the web path (status 400, provided the rejection notice to the
user is deliverable) and on the webhook location path (user message, session
to `MENU`); however the web path's capture-link used flag has already been
mutated by then, so "persists nothing" holds only for report records. -/
theorem c8_outside_jurisdiction_rejects :
    (∀ (env : Env) (sessions : List Session) (links : List RLink)
        (userId reportType desc : Option String) (lat lng : JSValue)
        (addr linkId : Option String) (hasFile : Bool),
      jsTruthyStr userId = true → jsTruthyStr reportType = true →
      (findDivisionForLocation env.cache env.divisions lat lng).1 = none →
      sendWhatsAppMessage env.sendOk (normalizeUserId (userId.getD "")) = true →
      (apiReport env sessions links userId reportType desc lat lng addr linkId
        hasFile).status = 400 ∧
      (apiReport env sessions links userId reportType desc lat lng addr linkId
        hasFile).resp = ApiResp.outsideJurisdiction ∧
      (apiReport env sessions links userId reportType desc lat lng addr linkId
        hasFile).saved = []) ∧
    (∀ (env : Env) (req : WebhookReq) (stored : Option Session),
      strToLower req.Body ≠ "reset" → strToLower req.Body ≠ "menu" →
      (getUserSession stored req.From env.now).current_state = "AWAITING_LOCATION" →
      req.Latitude.truthy = true → req.Longitude.truthy = true →
      (findDivisionForLocation env.cache env.divisions req.Latitude req.Longitude).1
        = none →
      (webhookHandler env req stored).savedQueries = [] ∧
      (webhookHandler env req stored).responseMessage =
        Msg.locationOutsideJurisdiction
          (if (getUserSession stored req.From env.now).language = "" then "en"
           else (getUserSession stored req.From env.now).language) ∧
      (webhookHandler env req stored).finalSession.current_state = "MENU") := by
  constructor
  · intro env sessions links userId reportType desc lat lng addr linkId hasFile
      h1 h2 hdiv hsend
    rcases hres : findDivisionForLocation env.cache env.divisions lat lng with ⟨r1, r2, r3⟩
    rw [hres] at hdiv
    subst hdiv
    refine ⟨?_, ?_, ?_⟩ <;> simp [apiReport, h1, h2, hres, hsend]
  · intro env req stored hreset hmenu hstate hlat hlng hdiv
    rcases hres : findDivisionForLocation env.cache env.divisions req.Latitude req.Longitude
      with ⟨r1, r2, r3⟩
    rw [hres] at hdiv
    subst hdiv
    refine ⟨?_, ?_, ?_⟩ <;>
      simp [webhookHandler, processMessage, handleAwaitingLocation, updateUserSession,
        hreset, hmenu, hstate, hlat, hlng, hres]

/-- Witness for C8 as amended: the fixture outside-jurisdiction submission is
answered 400 / outside-jurisdiction with no report persisted. -/
theorem c8_outside_jurisdiction_rejects_witness :
    (apiReport (envAllSendOk []) [] [⟨"L1", "15550001", "4", 0, false, none⟩]
        (some "whatsapp:+15550001") (some "4") (some "d") (jsNumStr 2) (jsNumStr 3)
        none (some "L1") false).status = 400 ∧
    (apiReport (envAllSendOk []) [] [⟨"L1", "15550001", "4", 0, false, none⟩]
        (some "whatsapp:+15550001") (some "4") (some "d") (jsNumStr 2) (jsNumStr 3)
        none (some "L1") false).resp = ApiResp.outsideJurisdiction ∧
    (apiReport (envAllSendOk []) [] [⟨"L1", "15550001", "4", 0, false, none⟩]
        (some "whatsapp:+15550001") (some "4") (some "d") (jsNumStr 2) (jsNumStr 3)
        none (some "L1") false).saved = [] :=
  c8_outside_jurisdiction_rejects.1 (envAllSendOk []) []
    [⟨"L1", "15550001", "4", 0, false, none⟩]
    (some "whatsapp:+15550001") (some "4") (some "d") (jsNumStr 2) (jsNumStr 3)
    none (some "L1") false rfl rfl (by decide) (by decide)

/-- C6 (counterexample): the webhook handler does NOT always answer 200 —
when the outbound response send throws, the top-level catch answers 500. -/
theorem c6_webhook_counterexample :
    (webhookHandler (envNoSendOk []) (textReq "hi") none).httpStatus = 500 := by
  rfl

/-- C6 as amended: the webhook handler always answers with the empty TwiML
acknowledgement envelope; it answers 200 whenever processing completes (in
particular whenever the response send to the user succeeds), but an uncaught
internal error — a failing response send — propagates as a 500 with the same
empty envelope. -/
theorem c6_webhook_response (env : Env) (req : WebhookReq) (stored : Option Session) :
    (webhookHandler env req stored).httpBody = emptyEnvelope ∧
    (webhookHandler env req stored).httpStatus =
      (if env.sendOk req.From then 200 else 500) :=
  ⟨rfl, rfl⟩

/-- C7 (counterexample): "menu" does NOT reach the menu command from every
state — in `LANGUAGE_SELECT` the dispatch consumes it as an invalid language
selection and the session stays in `LANGUAGE_SELECT`. -/
theorem c7_menu_counterexample :
    (webhookHandler (envAllSendOk []) (textReq "menu")
        (some (sessionIn "LANGUAGE_SELECT"))).finalSession.current_state
      = "LANGUAGE_SELECT" := by
  norm_num [webhookHandler, processMessage, getUserSession, updateUserSession,
    conversationTimeout, envAllSendOk, textReq, sessionIn, strToLower, charLower,
    jsTruthyStr]
  decide

/-- C7 as amended: from every conversation state OTHER THAN `LANGUAGE_SELECT`
and `NAME_COLLECTION` (whose branches are checked before the menu command), a
text message "menu" moves the session to `MENU`, clears the last option and
emits the main menu; in `LANGUAGE_SELECT` the message is treated as an invalid
language choice (state unchanged), and in `NAME_COLLECTION` it is stored as
the user's name. -/
theorem c7_menu_command (env : Env) (req : WebhookReq) (stored : Option Session)
    (hmsg : req.Body = "menu")
    (hst1 : (getUserSession stored req.From env.now).current_state ≠ "LANGUAGE_SELECT")
    (hst2 : (getUserSession stored req.From env.now).current_state ≠ "NAME_COLLECTION") :
    (webhookHandler env req stored).finalSession.current_state = "MENU" ∧
    (webhookHandler env req stored).finalSession.last_option = none ∧
    (webhookHandler env req stored).responseMessage =
      Msg.mainMenu (if (getUserSession stored req.From env.now).language = "" then "en"
        else (getUserSession stored req.From env.now).language) := by
  refine ⟨?_, ?_, ?_⟩ <;>
    simp [webhookHandler, processMessage, updateUserSession, hmsg, hst1, hst2,
      strToLower, charLower]

/-- Witness for C7 at a concrete session in state `MENU`. -/
theorem c7_menu_command_witness :
    (webhookHandler (envAllSendOk []) (textReq "menu")
        (some (sessionIn "MENU"))).finalSession.current_state = "MENU" :=
  (c7_menu_command (envAllSendOk []) (textReq "menu") (some (sessionIn "MENU")) rfl
    (by norm_num [getUserSession, sessionIn, textReq, envAllSendOk, conversationTimeout]
        decide)
    (by norm_num [getUserSession, sessionIn, textReq, envAllSendOk, conversationTimeout]
        decide)).1

/-- Witness for C5 at a concrete link store: the 4:59 / 5:01 boundary. -/
theorem c5_link_validation_order_witness :
    checkLinkValidity [⟨"L1", "123", "1", 0, false, none⟩] (some "L1")
      (some "whatsapp:+123") 299000 = (LinkCheck.valid, 200) ∧
    checkLinkValidity [⟨"L1", "123", "1", 0, false, none⟩] (some "L1")
      (some "whatsapp:+123") 301000 = (LinkCheck.expired, 403) :=
  ⟨(c5_link_validation_order [⟨"L1", "123", "1", 0, false, none⟩] "L1"
      "whatsapp:+123" 299000 (by decide) (by decide)).2.2.2.2.1
      ⟨"L1", "123", "1", 0, false, none⟩ (by decide) rfl (by norm_num),
   (c5_link_validation_order [⟨"L1", "123", "1", 0, false, none⟩] "L1"
      "whatsapp:+123" 301000 (by decide) (by decide)).2.2.2.2.2
      ⟨"L1", "123", "1", 0, false, none⟩ (by decide) rfl (by norm_num)⟩

/-! ## The geometry claims: rotation invariance, cache idempotence,
division resolution -/

/-- The flip-per-crossing fold equals the crossing-count parity. -/
theorem foldl_flip_eq (p : Vertex × Vertex → Bool) (l : List (Vertex × Vertex)) :
    ∀ b, l.foldl (fun i e => if p e then !i else i) b = b.xor ((l.countP p) % 2 == 1) := by
  induction l with
  | nil => intro b; simp
  | cons a l ih =>
    intro b
    by_cases hp : p a
    · have h1 : (((l.countP p + 1) % 2 == 1) : Bool) = !((l.countP p) % 2 == 1) := by
        rcases Nat.mod_two_eq_zero_or_one (l.countP p) with h | h <;>
          simp [Nat.add_mod, h]
      simp only [List.foldl_cons, hp, if_true, List.countP_cons, ih]
      simp only [hp, if_true, h1]
      cases b <;> simp
    · simp only [List.foldl_cons, hp, if_false, List.countP_cons, ih]
      simp [hp]

/-- Zipping commutes with rotating both lists by the same amount. -/
theorem zip_rotate {α β : Type} (l₁ : List α) (l₂ : List β) (k : ℕ)
    (hlen : l₁.length = l₂.length) :
    (l₁.rotate k).zip (l₂.rotate k) = (l₁.zip l₂).rotate k := by
  apply List.ext_getElem
  · simp [List.length_rotate, List.length_zip, hlen]
  · intro i h1 h2
    simp only [List.getElem_zip, List.getElem_rotate, List.length_zip,
      List.length_rotate, hlen, Nat.min_self]

/-- The cyclic edge list of a rotated ring is the rotated edge list. -/
theorem edgePairs_rotate (poly : List Vertex) (k : ℕ) :
    edgePairs (poly.rotate k) = (edgePairs poly).rotate k := by
  unfold edgePairs
  rw [List.length_rotate, List.rotate_rotate, Nat.add_comm k (poly.length - 1),
    ← List.rotate_rotate]
  exact zip_rotate poly (poly.rotate (poly.length - 1)) k (List.length_rotate _ _).symm

/-- The ray cast is invariant under ring rotation: the crossing parity only
depends on the multiset of edges. -/
theorem rayCastFold_rotate (x y : ℚ) (poly : List Vertex) (k : ℕ) :
    rayCastFold x y (edgePairs (poly.rotate k)) = rayCastFold x y (edgePairs poly) := by
  unfold rayCastFold
  rw [edgePairs_rotate, foldl_flip_eq, foldl_flip_eq,
    (List.rotate_perm (edgePairs poly) k).countP_eq]

/-- C9: `isPointInPolygon` returns the same boolean when the ring's vertex
list (of at least 3 numeric vertices) is cyclically rotated by any amount,
for every point. -/
theorem c9_isPointInPolygon_rotation (point : Option ℚ × Option ℚ)
    (poly : List Vertex) (k : ℕ) (hlen : 3 ≤ poly.length)
    (hnum : ∀ v ∈ poly, v.1.isSome ∧ v.2.isSome) :
    isPointInPolygon point (poly.rotate k) = isPointInPolygon point poly := by
  unfold isPointInPolygon
  rw [List.length_rotate]
  rcases point with ⟨a, b⟩
  rcases a <;> rcases b <;> simp [rayCastFold_rotate]

/-- Witness for C9: the square ring rotated by one. -/
theorem c9_isPointInPolygon_rotation_witness :
    3 ≤ sampleRing.length ∧
    isPointInPolygon (some 3, some 2) (sampleRing.rotate 1)
      = isPointInPolygon (some 3, some 2) sampleRing :=
  ⟨by decide, c9_isPointInPolygon_rotation (some 3, some 2) sampleRing 1
    (by decide) (by decide)⟩

/-- `Division.findById` refetches exactly the scanned division when the store
has no duplicate ids. -/
theorem findById_nodup (divs : List Division) (d : Division)
    (hmem : d ∈ divs) (hnodup : (divs.map Division.id).Nodup) :
    findById divs d.id = some d := by
  induction divs with
  | nil => cases hmem
  | cons x xs ih =>
    rw [List.map_cons, List.nodup_cons] at hnodup
    rcases List.mem_cons.mp hmem with h | h
    · subst h
      unfold findById
      rw [List.find?_cons_of_pos]
      simp
    · have hx : x.id ≠ d.id := by
        intro he
        exact hnodup.1 (he ▸ List.mem_map_of_mem Division.id h)
      unfold findById
      rw [List.find?_cons_of_neg]
      · exact ih h hnodup.2
      · simp [hx]

/-- C4: two consecutive `findDivisionForLocation` calls whose numeric
coordinates round to the same 6-decimal cache key return the same division
(or `none` for a cached outside marker), and the second call never iterates
the division polygons (its scan flag is false) — whatever the first call did
(cache hit, fresh scan, or outside result).  Division ids are assumed unique
as in any id-keyed store. -/
theorem c4_resolve_cache_idempotent (cache : Cache) (divisions : List Division)
    (latv lngv latv2 lngv2 : JSValue) (lat lng lat2 lng2 : ℚ)
    (hnodup : (divisions.map Division.id).Nodup)
    (h1t : latv.truthy = true) (h1g : lngv.truthy = true)
    (h2t : latv2.truthy = true) (h2g : lngv2.truthy = true)
    (h1n : latv.toNumber = some lat) (h1gn : lngv.toNumber = some lng)
    (h2n : latv2.toNumber = some lat2) (h2gn : lngv2.toNumber = some lng2)
    (hkey : round6 lat2 = round6 lat ∧ round6 lng2 = round6 lng) :
    (findDivisionForLocation (findDivisionForLocation cache divisions latv lngv).2.1
        divisions latv2 lngv2).1
      = (findDivisionForLocation cache divisions latv lngv).1 ∧
    (findDivisionForLocation (findDivisionForLocation cache divisions latv lngv).2.1
        divisions latv2 lngv2).2.2 = false := by
  have hunfold : ∀ (c : Cache) (lv gv : JSValue) (la lg : ℚ),
      lv.truthy = true → gv.truthy = true →
      lv.toNumber = some la → gv.toNumber = some lg →
      findDivisionForLocation c divisions lv gv =
        (match cacheGet c (round6 la, round6 lg) with
         | some (CacheVal.division id _) => (findById divisions id, c, false)
         | some CacheVal.outside => (none, c, false)
         | none =>
            match scanDivisions divisions lg la with
            | some d => (some d,
                cacheSet c (round6 la, round6 lg) (CacheVal.division d.id d.name), true)
            | none => (none, cacheSet c (round6 la, round6 lg) CacheVal.outside, true)) := by
    intro c lv gv la lg ht hg hn hgn
    simp [findDivisionForLocation, ht, hg, hn, hgn]
  rw [hunfold cache latv lngv lat lng h1t h1g h1n h1gn,
      hunfold _ latv2 lngv2 lat2 lng2 h2t h2g h2n h2gn, hkey.1, hkey.2]
  rcases hc : cacheGet cache (round6 lat, round6 lng) with _ | v
  · rcases hs : scanDivisions divisions lng lat with _ | d
    · simp [hc, hs, cacheGet, cacheSet]
    · have hm : d ∈ divisions := List.mem_of_find?_eq_some hs
      simp [hc, hs, cacheGet, cacheSet, findById_nodup divisions d hm hnodup]
  · rcases v with ⟨id, name⟩ | _
    · simp [hc]
    · simp [hc]

/-- Witness for C4: the same in-jurisdiction coordinate twice over a fresh
cache — the second call returns the same division without scanning. -/
theorem c4_resolve_cache_idempotent_witness :
    (findDivisionForLocation
        (findDivisionForLocation [] [divNoOfficers] (jsNumStr 2) (jsNumStr 3)).2.1
        [divNoOfficers] (jsNumStr 2) (jsNumStr 3)).1
      = (findDivisionForLocation [] [divNoOfficers] (jsNumStr 2) (jsNumStr 3)).1 ∧
    (findDivisionForLocation
        (findDivisionForLocation [] [divNoOfficers] (jsNumStr 2) (jsNumStr 3)).2.1
        [divNoOfficers] (jsNumStr 2) (jsNumStr 3)).2.2 = false :=
  c4_resolve_cache_idempotent [] [divNoOfficers] (jsNumStr 2) (jsNumStr 3)
    (jsNumStr 2) (jsNumStr 3) 2 3 2 3 (by decide) rfl rfl rfl rfl rfl rfl rfl rfl
    ⟨rfl, rfl⟩

/-- `find?` returns the unique element satisfying the predicate. -/
theorem find?_eq_some_of_unique {l : List Division} {d : Division}
    {p : Division → Bool} (hpd : p d = true) (hmem : d ∈ l)
    (huniq : ∀ e ∈ l, e ≠ d → p e = false) : l.find? p = some d := by
  induction l with
  | nil => cases hmem
  | cons x xs ih =>
    by_cases hx : x = d
    · subst hx
      rw [List.find?_cons_of_pos _ hpd]
    · have hpx : p x = false := huniq x (List.mem_cons_self _ _) hx
      rw [List.find?_cons_of_neg]
      · apply ih
        · rcases List.mem_cons.mp hmem with h | h
          · exact absurd h.symm hx
          · exact h
        · intro e he hne
          exact huniq e (List.mem_cons_of_mem _ he) hne
      · simp [hpx]

/-- C3 (counterexample): the numeric latitude `0` strictly inside a division
is nevertheless resolved to `none` — the input guard `!latitude` rejects the
falsy number `0`, so it is not true that only non-numeric inputs are
rejected. -/
theorem c3_zero_latitude_counterexample :
    divisionContains divNoOfficers 3 0 = true ∧
    (findDivisionForLocation [] [divNoOfficers] (jsNum 0) (jsNumStr 3)).1 = none := by
  constructor
  · norm_num [divisionContains, divNoOfficers, sampleRing, isPointInPolygon, rayCastFold,
      edgePairs, edgeCrosses, List.rotate]
  · rfl

/-- C3 as amended: for truthy numeric coordinates (which excludes the number
`0`, rejected as falsy), a fresh-cache `findDivisionForLocation` returns the
division whose ring contains the point by the ray-cast test whenever that
division is the only containing one, and returns `none` when no division's
ring contains the point. -/
theorem c3_resolve_containment (divisions : List Division) (latv lngv : JSValue)
    (lat lng : ℚ) (d : Division)
    (ht1 : latv.truthy = true) (ht2 : lngv.truthy = true)
    (hn1 : latv.toNumber = some lat) (hn2 : lngv.toNumber = some lng) :
    (divisionContains d lng lat = true → d ∈ divisions →
      (∀ e ∈ divisions, e ≠ d → divisionContains e lng lat = false) →
      (findDivisionForLocation [] divisions latv lngv).1 = some d) ∧
    ((∀ e ∈ divisions, divisionContains e lng lat = false) →
      (findDivisionForLocation [] divisions latv lngv).1 = none) := by
  constructor
  · intro hin hmem huniq
    have hscan : scanDivisions divisions lng lat = some d :=
      find?_eq_some_of_unique hin hmem huniq
    simp [findDivisionForLocation, ht1, ht2, hn1, hn2, cacheGet, hscan]
  · intro hout
    have hscan : scanDivisions divisions lng lat = none := by
      unfold scanDivisions
      rw [List.find?_eq_none]
      intro e he
      simp [hout e he]
    simp [findDivisionForLocation, ht1, ht2, hn1, hn2, cacheGet, hscan]

/-- Witness for C3 as amended: the point `(lng 3, lat 2)` inside the square
division resolves to it. -/
theorem c3_resolve_containment_witness :
    (findDivisionForLocation [] [divNoOfficers] (jsNumStr 2) (jsNumStr 3)).1
      = some divNoOfficers :=
  (c3_resolve_containment [divNoOfficers] (jsNumStr 2) (jsNumStr 3) 2 3 divNoOfficers
    rfl rfl rfl rfl).1
    (by norm_num [divisionContains, divNoOfficers, sampleRing, isPointInPolygon,
      rayCastFold, edgePairs, edgeCrosses, List.rotate])
    (by simp)
    (by intro e he hne; simp at he; exact absurd he hne)

end TrafficBuddy
